import Mathlib

/-!
Shallow embedding of the persistent emulator session manager
(`src/tools/agent-android/src/agent_android/emulator.py`, class `EmulatorManager`).

Modelling conventions:
* Python `dict`s (`self._processes`, `self._ports`) are association lists keyed by
  `String`; `d[k] = v` overwrites in place or appends, `del d[k]` keeps only the
  other keys, a read `d[k]` of a missing key is a `KeyError`.
* The on-disk session store is a `FS` value: one `SessionDir` per existing
  `sessions/<id>/` directory, plus the existence bit of `shared/base_userdata.img`.
  `metadata.json` is stored as a parsed JSON value (`json.dump`/`json.load` of the
  text file round-trip the JSON value itself, so the text layer is not re-modelled;
  a file whose payload does not fit the `SessionMetadata` dataclass is modelled as
  raising `TypeError` at `SessionMetadata(**data)`).
* External effects (SDK provisioning subprocesses, the spawned emulator process,
  `adb` exit codes and output, OS-side port availability for `socket.bind`,
  `datetime.now()`) enter as explicit oracle parameters; they do not touch
  manager state except where the source reads their results. The probe socket
  object of `_find_available_port` is modelled explicitly, with its bound-once
  state.
* A Python call is a function `ManagerState → PyResult α × ManagerState`: an
  exception carries the state as mutated so far, exactly as in Python.
-/

/-- Python exceptions raised by `emulator.py`, by site (the message text is
carried structurally: the constructor argument is the value interpolated into
the Python message). -/
inductive PyError where
  /-- `ValueError(f"Session '{session_id}' already exists")` in `create_session`. -/
  | alreadyExists (session_id : String) : PyError
  /-- `RuntimeError(f"Session '{session_id}' is running. Stop it first or use force=True")`
  in `delete_session`. -/
  | sessionRunning (session_id : String) : PyError
  /-- `RuntimeError(f"Session '{session_id}' is not running")` in the snapshot and
  app-management operations. -/
  | sessionNotRunning (session_id : String) : PyError
  /-- `RuntimeError(f"Emulator failed to boot within {timeout}s")` in `start`. -/
  | bootTimeout (timeout : Nat) : PyError
  /-- `RuntimeError("No available emulator ports")` in `_find_available_port`. -/
  | resourceExhausted : PyError
  /-- `RuntimeError` from `create_base_avd` / `ensure_system_image` (provisioning). -/
  | provisioningError : PyError
  /-- `KeyError(key)` from reading a missing dict key. -/
  | keyError (key : String) : PyError
  /-- `TypeError` from `SessionMetadata(**data)` on a malformed payload, or from
  `None / "metadata.json"` when a registered session has no directory. -/
  | typeError : PyError
deriving Repr, DecidableEq

/-- Result of a Python call: normal return or raised exception. -/
inductive PyResult (α : Type) where
  | ok : α → PyResult α
  | err : PyError → PyResult α
deriving Repr, DecidableEq

/-- `k in d` for a Python dict modelled as an association list. -/
def dictMem {α : Type} (d : List (String × α)) (k : String) : Bool :=
  d.any (fun p => p.1 = k)

/-- `d.get(k)` — the binding of `k` in `d`, if any. -/
def dictGet {α : Type} (d : List (String × α)) (k : String) : Option α :=
  (d.find? (fun p => p.1 = k)).map (·.2)

/-- `d[k] = v`: overwrite the existing binding, else append a new one. -/
def dictSet {α : Type} (d : List (String × α)) (k : String) (v : α) :
    List (String × α) :=
  if dictMem d k then d.map (fun p => if p.1 = k then (k, v) else p)
  else d ++ [(k, v)]

/-- `del d[k]` after a membership check: drop every binding of `k`. -/
def dictErase {α : Type} (d : List (String × α)) (k : String) :
    List (String × α) :=
  d.filter (fun p => ¬ p.1 = k)

/-- Dataclass `SessionMetadata` (emulator.py lines 69–81). -/
structure SessionMetadata where
  session_id : String
  created_at : String
  last_accessed : String
  avd_name : String
  system_image : String
  installed_packages : List String := []
  snapshots : List String := []
  notes : String := ""
deriving Repr, DecidableEq

/-- A JSON value inside `metadata.json`, in the grammar `_save_metadata` writes
(strings and arrays of strings); a file whose payload falls outside this grammar
is one of the malformed inputs the `TypeError` branch of `loadMetadata` covers. -/
inductive JsonVal where
  | str : String → JsonVal
  | arr : List String → JsonVal
deriving Repr, DecidableEq

/-- The parsed contents of `metadata.json`: a JSON object. -/
abbrev JsonObj := List (String × JsonVal)

/-- `dataclasses.asdict`: the dict written by `_save_metadata`, fields in
declaration order. -/
def asdictMetadata (m : SessionMetadata) : JsonObj :=
  [ ("session_id", .str m.session_id),
    ("created_at", .str m.created_at),
    ("last_accessed", .str m.last_accessed),
    ("avd_name", .str m.avd_name),
    ("system_image", .str m.system_image),
    ("installed_packages", .arr m.installed_packages),
    ("snapshots", .arr m.snapshots),
    ("notes", .str m.notes) ]

/-- Extract a JSON string, as the dataclass field types expect. -/
def jsonAsStr : JsonVal → Option String
  | .str s => some s
  | _ => none

/-- Extract a JSON array of strings. -/
def jsonAsStrList : JsonVal → Option (List String)
  | .arr xs => some xs
  | _ => none

/-- Field names accepted by `SessionMetadata(**data)`. -/
def metadataFieldNames : List String :=
  ["session_id", "created_at", "last_accessed", "avd_name", "system_image",
   "installed_packages", "snapshots", "notes"]

/-- `SessionMetadata(**data)`: keyword construction from a JSON object.
Unknown keys, a missing required field, or an ill-typed value raise `TypeError`
(modelled as `none`); the three defaulted fields fall back to their dataclass
defaults when absent. -/
def metadataOfJson (kvs : JsonObj) : Option SessionMetadata :=
    if kvs.all (fun p => p.1 ∈ metadataFieldNames) then do
      let sid ← (dictGet kvs "session_id").bind jsonAsStr
      let created ← (dictGet kvs "created_at").bind jsonAsStr
      let accessed ← (dictGet kvs "last_accessed").bind jsonAsStr
      let avd ← (dictGet kvs "avd_name").bind jsonAsStr
      let image ← (dictGet kvs "system_image").bind jsonAsStr
      let pkgs ← match dictGet kvs "installed_packages" with
        | some j => jsonAsStrList j
        | none => some []
      let snaps ← match dictGet kvs "snapshots" with
        | some j => jsonAsStrList j
        | none => some []
      let notes ← match dictGet kvs "notes" with
        | some j => jsonAsStr j
        | none => some ""
      some { session_id := sid, created_at := created, last_accessed := accessed,
             avd_name := avd, system_image := image, installed_packages := pkgs,
             snapshots := snaps, notes := notes }
    else none

/-- One `sessions/<session_id>/` directory. -/
structure SessionDir where
  /-- Contents of `metadata.json`, when the file exists. -/
  metadataFile : Option JsonObj := none
  /-- Whether `userdata.img` exists. -/
  userdataImg : Bool := false
  /-- Whether `sdcard.img` exists. -/
  sdcardImg : Bool := false
  /-- Whether the `snapshots/` subdirectory exists. -/
  snapshotsSubdir : Bool := false
deriving Repr, DecidableEq

/-- The manager's durable store under `data_dir`. -/
structure FS where
  /-- The subdirectories of `sessions/`. -/
  sessions : List (String × SessionDir) := []
  /-- Whether `shared/base_userdata.img` exists. -/
  sharedBaseUserdata : Bool := false
deriving Repr, DecidableEq

/-- A tracked `subprocess.Popen` handle. `exited` is what `poll()` reports at
observation time (`poll() is None` ⟺ `exited = false`). -/
structure Proc where
  pid : Nat := 0
  exited : Bool := false
deriving Repr, DecidableEq

/-- The in-memory and on-disk state of one `EmulatorManager`. -/
structure ManagerState where
  fs : FS := {}
  /-- `self._processes`. -/
  processes : List (String × Proc) := []
  /-- `self._ports`. -/
  ports : List (String × Nat) := []
deriving Repr, DecidableEq

/-- Dataclass `EmulatorConfig` (emulator.py lines 43–66), with its defaults. -/
structure EmulatorConfig where
  avd_name : String := "base_pixel7_api34"
  system_image : String := "system-images;android-34;google_apis;x86_64"
  device_profile : String := "pixel_7"
  headless : Bool := true
  gpu : String := "swiftshader_indirect"
  memory_mb : Nat := 4096
  cores : Nat := 4
  sdcard_mb : Nat := 2048
  port : Option Nat := none
  writable_system : Bool := false
  snapshot_on_exit : Bool := true
deriving Repr, DecidableEq

/-- `_save_metadata(session_dir, metadata)`: rewrite `metadata.json` inside an
existing session directory. -/
def saveMetadata (fs : FS) (session_id : String) (m : SessionMetadata) : FS :=
  { fs with sessions :=
      fs.sessions.map (fun p =>
        if p.1 = session_id then (p.1, { p.2 with metadataFile := some (asdictMetadata m) })
        else p) }

/-- `_load_metadata(session_dir)`: `None` when the file is absent; a payload the
dataclass rejects raises `TypeError`. -/
def loadMetadata (d : SessionDir) : PyResult (Option SessionMetadata) :=
  match d.metadataFile with
  | none => .ok none
  | some j =>
    match metadataOfJson j with
    | some m => .ok (some m)
    | none => .err .typeError

namespace EmulatorManager

/-- `range(5554, 5682, 2)` — the candidate control ports (emulator.py line 709). -/
def portCandidates : List Nat := List.range' 5554 64 2

/-- One `socket.socket` probe object: a socket is bound to at most one local
address in its lifetime. -/
structure Socket where
  boundTo : Option Nat := none
deriving Repr, DecidableEq

/-- `s.bind(("localhost", port))`. On a fresh (unbound) socket the call succeeds
exactly when the OS reports the port free (`osFree`), and the socket becomes
bound to it; on an already-bound socket the call raises `OSError` (EINVAL)
whatever port is requested, because a socket can be bound only once. `none` is
the raised `OSError`. -/
def socketBind (s : Socket) (osFree : Nat → Bool) (port : Nat) : Option Socket :=
  match s.boundTo with
  | some _ => none
  | none => if osFree port then some { boundTo := some port } else none

/-- The probe body of `_find_available_port` (lines 713–720): one fresh socket
per candidate, `bind(port)` then `bind(port + 1)` on that same socket inside a
single `try`; any `OSError` makes the candidate fail. -/
def probeCandidate (osFree : Nat → Bool) (port : Nat) : Bool :=
  match socketBind {} osFree port with
  | none => false
  | some s1 =>
    match socketBind s1 osFree (port + 1) with
    | none => false
    | some _ => true

/-- The scan loop of `_find_available_port`: skip candidates already held by the
registry, return the first whose probe succeeds. -/
def findPortLoop (used : List Nat) (osFree : Nat → Bool) : List Nat → Option Nat
  | [] => none
  | p :: rest =>
    if p ∈ used then findPortLoop used osFree rest
    else if probeCandidate osFree p then some p
    else findPortLoop used osFree rest

/-- `_find_available_port` (lines 703–722). `osFree q` is the OS-side
availability oracle: what a bind of port `q` on a fresh socket would report. -/
def find_available_port (ports : List (String × Nat)) (osFree : Nat → Bool) :
    PyResult Nat :=
  match findPortLoop (ports.map (·.2)) osFree portCandidates with
  | some p => .ok p
  | none => .err .resourceExhausted

/-- `port = config.port or self._find_available_port()` (line 371). Python `or`
falls through on falsy values, so a configured port of `0` is ignored. -/
def resolvePort (cfg : EmulatorConfig) (ports : List (String × Nat))
    (osFree : Nat → Bool) : PyResult Nat :=
  match cfg.port with
  | some p => if p = 0 then find_available_port ports osFree else .ok p
  | none => find_available_port ports osFree

/-- `get_session` (lines 275–280): the session directory path when it exists. -/
def get_session (s : ManagerState) (session_id : String) : Option String :=
  if dictMem s.fs.sessions session_id then some ("sessions/" ++ session_id)
  else none

/-- `create_session` (lines 225–273). `now` is the `datetime.now().isoformat()`
oracle. The template copy (lines 261–270) is best-effort: the `userdata.img` of
the new directory exists exactly when the resolved source image existed. -/
def create_session (s : ManagerState) (session_id : String)
    (config : Option EmulatorConfig) (from_template : Option String)
    (now : String) : PyResult String × ManagerState :=
  let cfg := config.getD {}
  if dictMem s.fs.sessions session_id then
    (.err (.alreadyExists session_id), s)
  else
    let metadata : SessionMetadata :=
      { session_id := session_id, created_at := now, last_accessed := now,
        avd_name := cfg.avd_name, system_image := cfg.system_image }
    let copied : Bool :=
      match from_template with
      | none => false
      | some t =>
        if t = "" then false            -- `if from_template:` is falsy on ""
        else if t = "base" then s.fs.sharedBaseUserdata
        else
          match dictGet s.fs.sessions t with
          | some d => d.userdataImg
          | none => false
    let dir : SessionDir :=
      { metadataFile := some (asdictMetadata metadata),
        userdataImg := copied, sdcardImg := false, snapshotsSubdir := true }
    (.ok ("sessions/" ++ session_id),
     { s with fs := { s.fs with sessions := dictSet s.fs.sessions session_id dir } })

/-- Lines 310–315 of `delete_session`: `shutil.rmtree` when the directory exists. -/
def rmtreeSession (s : ManagerState) (session_id : String) :
    PyResult Bool × ManagerState :=
  if dictMem s.fs.sessions session_id then
    (.ok true,
     { s with fs := { s.fs with sessions := dictErase s.fs.sessions session_id } })
  else (.ok false, s)

/-- `stop` (lines 448–488). The `adb emu kill` request (timeout swallowed) and
the bounded wait / forced process-group kill act only on the external OS
process, so they leave manager state untouched; both registry entries are then
deleted unconditionally. The `save_snapshot` flag is accepted and never read,
as in the source. -/
def stop (s : ManagerState) (session_id : String) (save_snapshot : Bool) :
    PyResult Bool × ManagerState :=
  if dictMem s.processes session_id then
    match dictGet s.ports session_id with
    | none => (.err (.keyError session_id), s)  -- `self._ports[session_id]`
    | some _port =>
      (.ok true,
       { s with processes := dictErase s.processes session_id,
                ports := dictErase s.ports session_id })
  else (.ok false, s)

/-- `delete_session` (lines 292–315). -/
def delete_session (s : ManagerState) (session_id : String) (force : Bool) :
    PyResult Bool × ManagerState :=
  if dictMem s.processes session_id then
    if force then
      match stop s session_id true with
      | (.err e, s1) => (.err e, s1)
      | (.ok _, s1) => rmtreeSession s1 session_id
    else (.err (.sessionRunning session_id), s)
  else rmtreeSession s session_id

/-- `get_serial` (lines 504–508): consults only the port registry. -/
def get_serial (s : ManagerState) (session_id : String) : Option String :=
  match dictGet s.ports session_id with
  | some port => some ("emulator-" ++ toString port)
  | none => none

/-- `is_running` (lines 496–502): registered and `poll()` still `None`. -/
def is_running (s : ManagerState) (session_id : String) : Bool :=
  match dictGet s.processes session_id with
  | none => false
  | some p => !p.exited

/-- `start` (lines 336–446). Oracles: `now` for both timestamps, `provisionOk`
for `create_base_avd` (pure SDK subprocess work), `osFree` for the OS side of
the port probe, `newProc` for the `Popen` handle, `bootOk` for `_wait_for_boot`. -/
def start (s : ManagerState) (session_id : String) (config : Option EmulatorConfig)
    (wait_boot : Bool) (timeout : Nat) (now : String) (provisionOk : Bool)
    (osFree : Nat → Bool) (newProc : Proc) (bootOk : Bool) :
    PyResult String × ManagerState :=
  if dictMem s.processes session_id then
    match dictGet s.ports session_id with
    | none => (.err (.keyError session_id), s)
    | some port => (.ok ("emulator-" ++ toString port), s)
  else
    match (if (get_session s session_id).isSome then (.ok ("sessions/" ++ session_id), s)
           else create_session s session_id config none now) with
    | (.err e, s1) => (.err e, s1)
    | (.ok _, s1) =>
      let cfg := config.getD {}
      match (match dictGet s1.fs.sessions session_id with
             | some d => loadMetadata d
             | none => .err .typeError) with
      | .err e => (.err e, s1)
      | .ok metadata =>
        if !provisionOk then (.err .provisioningError, s1)
        else
          match resolvePort cfg s1.ports osFree with
          | .err e => (.err e, s1)
          | .ok port =>
            let s2 := { s1 with ports := dictSet s1.ports session_id port }
            let s3 := { s2 with processes := dictSet s2.processes session_id newProc }
            let serial := "emulator-" ++ toString port
            if wait_boot && !bootOk then
              match stop s3 session_id true with
              | (.err e, s4) => (.err e, s4)
              | (.ok _, s4) => (.err (.bootTimeout timeout), s4)
            else
              match metadata with
              | some m =>
                (.ok serial,
                 { s3 with fs := saveMetadata s3.fs session_id { m with last_accessed := now } })
              | none => (.ok serial, s3)

/-- `save_snapshot` (lines 514–546). `adbOk` is the exit status of
`adb emu avd snapshot save`. -/
def save_snapshot (s : ManagerState) (session_id snapshot_name : String)
    (adbOk : Bool) : PyResult Bool × ManagerState :=
  match get_serial s session_id with
  | none => (.err (.sessionNotRunning session_id), s)
  | some _serial =>
    if adbOk then
      match dictGet s.fs.sessions session_id with
      | none => (.err .typeError, s)  -- `_load_metadata(None)` on a vanished dir
      | some d =>
        match loadMetadata d with
        | .err e => (.err e, s)
        | .ok none => (.ok true, s)
        | .ok (some m) =>
          if snapshot_name ∈ m.snapshots then (.ok true, s)
          else
            let m2 := { m with snapshots := m.snapshots ++ [snapshot_name] }
            (.ok true, { s with fs := saveMetadata s.fs session_id m2 })
    else (.ok false, s)

/-- `load_snapshot` (lines 548–573): guard, issue the command, report its status. -/
def load_snapshot (s : ManagerState) (session_id snapshot_name : String)
    (adbOk : Bool) : PyResult Bool × ManagerState :=
  match get_serial s session_id with
  | none => (.err (.sessionNotRunning session_id), s)
  | some _serial => (.ok adbOk, s)

/-- The output-parsing loop of `list_snapshots` (lines 594–601): per stripped
line, skip empties and lines starting with `ID` or `-`, keep the first
whitespace-separated token. -/
def parseSnapshotOutput (out : String) : List String :=
  (out.splitOn "\n").foldl (fun acc line =>
    let line := line.trim
    if line ≠ "" && !line.startsWith "ID" && !line.startsWith "-" then
      match (line.split Char.isWhitespace).filter (· ≠ "") with
      | [] => acc
      | w :: _ => acc ++ [w]
    else acc) []

/-- `list_snapshots` (lines 575–602). `adbOut` is the stdout of
`adb emu avd snapshot list`, consulted only when the session is running. -/
def list_snapshots (s : ManagerState) (session_id : String) (adbOut : String) :
    PyResult (List String) × ManagerState :=
  match get_serial s session_id with
  | none =>
    match dictGet s.fs.sessions session_id with
    | some d =>
      match loadMetadata d with
      | .err e => (.err e, s)
      | .ok (some m) => (.ok m.snapshots, s)
      | .ok none => (.ok [], s)
    | none => (.ok [], s)
  | some _serial => (.ok (parseSnapshotOutput adbOut), s)

/-- `delete_snapshot` (lines 604–627). `list.remove` drops the first occurrence. -/
def delete_snapshot (s : ManagerState) (session_id snapshot_name : String)
    (adbOk : Bool) : PyResult Bool × ManagerState :=
  match get_serial s session_id with
  | none => (.err (.sessionNotRunning session_id), s)
  | some _serial =>
    if adbOk then
      match dictGet s.fs.sessions session_id with
      | none => (.err .typeError, s)
      | some d =>
        match loadMetadata d with
        | .err e => (.err e, s)
        | .ok none => (.ok true, s)
        | .ok (some m) =>
          if snapshot_name ∈ m.snapshots then
            let m2 := { m with snapshots := m.snapshots.erase snapshot_name }
            (.ok true, { s with fs := saveMetadata s.fs session_id m2 })
          else (.ok true, s)
    else (.ok false, s)

/-- `install_apk` (lines 633–678). `adbOk` is the `adb install -r` exit status;
`aaptPackage` is the package name recovered from `aapt dump badging` (`none`
when no package line parsed — and any exception inside the metadata-update
`try` block is swallowed, so that path still returns `True`). -/
def install_apk (s : ManagerState) (session_id apk_path : String)
    (adbOk : Bool) (aaptPackage : Option String) :
    PyResult Bool × ManagerState :=
  match get_serial s session_id with
  | none => (.err (.sessionNotRunning session_id), s)
  | some _serial =>
    if adbOk then
      match aaptPackage with
      | none => (.ok true, s)
      | some pkg =>
        match dictGet s.fs.sessions session_id with
        | none => (.ok true, s)      -- exception swallowed by `except Exception`
        | some d =>
          match loadMetadata d with
          | .err _ => (.ok true, s)  -- likewise swallowed
          | .ok none => (.ok true, s)
          | .ok (some m) =>
            if pkg ∈ m.installed_packages then (.ok true, s)
            else
              let m2 := { m with installed_packages := m.installed_packages ++ [pkg] }
              (.ok true, { s with fs := saveMetadata s.fs session_id m2 })
    else (.ok false, s)

end EmulatorManager

/-! ### Helper lemmas on the dict primitives -/

theorem dictGet_cons {α : Type} (a : String × α) (t : List (String × α)) (k : String) :
    dictGet (a :: t) k = if a.1 = k then some a.2 else dictGet t k := by
  by_cases h : a.1 = k <;> simp [dictGet, List.find?_cons, h]

theorem dictMem_cons {α : Type} (a : String × α) (t : List (String × α)) (k : String) :
    dictMem (a :: t) k = (decide (a.1 = k) || dictMem t k) := by
  simp [dictMem, List.any_cons]

theorem dictMem_eq_isSome {α : Type} (d : List (String × α)) (k : String) :
    dictMem d k = (dictGet d k).isSome := by
  induction d with
  | nil => rfl
  | cons a t ih =>
    by_cases h : a.1 = k <;> simp [dictMem_cons, dictGet_cons, h] <;> exact ih

theorem dictGet_map_set_self {α : Type} (d : List (String × α)) (k : String) (v : α)
    (h : dictMem d k = true) :
    dictGet (d.map (fun p => if p.1 = k then (k, v) else p)) k = some v := by
  induction d with
  | nil => simp [dictMem] at h
  | cons a t ih =>
    by_cases ha : a.1 = k
    · simp [List.map_cons, if_pos ha, dictGet_cons]
    · have ht : dictMem t k = true := by
        simpa [dictMem_cons, ha] using h
      simpa [List.map_cons, if_neg ha, dictGet_cons, ha] using ih ht

theorem dictGet_append_single {α : Type} (d : List (String × α)) (k : String) (v : α)
    (h : dictMem d k = false) :
    dictGet (d ++ [(k, v)]) k = some v := by
  induction d with
  | nil => simp [dictGet_cons, dictGet]
  | cons a t ih =>
    have ha : ¬ a.1 = k := by
      intro hk; simp [dictMem_cons, hk] at h
    have ht : dictMem t k = false := by
      simpa [dictMem_cons, ha] using h
    simpa [List.cons_append, dictGet_cons, ha] using ih ht

theorem dictGet_dictSet_self {α : Type} (d : List (String × α)) (k : String) (v : α) :
    dictGet (dictSet d k v) k = some v := by
  unfold dictSet
  by_cases h : dictMem d k = true
  · simpa [h] using dictGet_map_set_self d k v h
  · have h' : dictMem d k = false := by simpa using h
    simpa [h'] using dictGet_append_single d k v h'

theorem dictMem_dictSet_self {α : Type} (d : List (String × α)) (k : String) (v : α) :
    dictMem (dictSet d k v) k = true := by
  rw [dictMem_eq_isSome, dictGet_dictSet_self]; rfl

theorem dictGet_dictErase_self {α : Type} (d : List (String × α)) (k : String) :
    dictGet (dictErase d k) k = none := by
  induction d with
  | nil => rfl
  | cons a t ih =>
    by_cases ha : a.1 = k
    · simpa [dictErase, List.filter_cons, ha] using ih
    · simpa [dictErase, List.filter_cons, ha, dictGet_cons] using ih

theorem dictMem_dictErase_self {α : Type} (d : List (String × α)) (k : String) :
    dictMem (dictErase d k) k = false := by
  rw [dictMem_eq_isSome, dictGet_dictErase_self]; rfl

theorem dictGet_map_set_ne {α : Type} (d : List (String × α)) (k k' : String) (v : α)
    (h : ¬ k' = k) :
    dictGet (d.map (fun p => if p.1 = k then (k, v) else p)) k' = dictGet d k' := by
  induction d with
  | nil => rfl
  | cons a t ih =>
    by_cases ha : a.1 = k
    · have hk : ¬ k = k' := fun hkk => h hkk.symm
      have ha' : ¬ a.1 = k' := by rw [ha]; exact hk
      simp [List.map_cons, if_pos ha, dictGet_cons, hk, ha', ih, h]
    · by_cases ha' : a.1 = k' <;>
        simp [List.map_cons, if_neg ha, dictGet_cons, ha', ih, h]

theorem dictGet_append_single_ne {α : Type} (d : List (String × α)) (k k' : String) (v : α)
    (h : ¬ k' = k) :
    dictGet (d ++ [(k, v)]) k' = dictGet d k' := by
  induction d with
  | nil =>
    have hk : ¬ k = k' := fun hkk => h hkk.symm
    simp [dictGet_cons, dictGet, hk]
  | cons a t ih =>
    by_cases ha' : a.1 = k' <;> simp [List.cons_append, dictGet_cons, ha', ih]

theorem dictGet_dictSet_ne {α : Type} (d : List (String × α)) (k k' : String) (v : α)
    (h : ¬ k' = k) :
    dictGet (dictSet d k v) k' = dictGet d k' := by
  unfold dictSet
  by_cases hm : dictMem d k <;>
    simp [hm, dictGet_map_set_ne d k k' v h, dictGet_append_single_ne d k k' v h]

/-! ### Metadata round trip (shared) -/

theorem metadataOfJson_asdict (m : SessionMetadata) :
    metadataOfJson (asdictMetadata m) = some m := by
  simp [metadataOfJson, asdictMetadata, metadataFieldNames, dictGet,
        List.find?_cons, jsonAsStr, jsonAsStrList]

theorem loadMetadata_asdict (d : SessionDir) (m : SessionMetadata) :
    loadMetadata { d with metadataFile := some (asdictMetadata m) } = .ok (some m) := by
  simp [loadMetadata, metadataOfJson_asdict]

theorem dictGet_map_save (sid : String) (m : SessionMetadata)
    (l : List (String × SessionDir)) (d : SessionDir) (h : dictGet l sid = some d) :
    dictGet (l.map (fun p =>
        if p.1 = sid then (p.1, { p.2 with metadataFile := some (asdictMetadata m) })
        else p)) sid
      = some { d with metadataFile := some (asdictMetadata m) } := by
  induction l with
  | nil => simp [dictGet] at h
  | cons a t ih =>
    rw [dictGet_cons] at h
    by_cases ha : a.1 = sid
    · rw [if_pos ha] at h
      have had : a.2 = d := Option.some.inj h
      simp [List.map_cons, if_pos ha, dictGet_cons, ha, had]
    · rw [if_neg ha] at h
      simpa [List.map_cons, if_neg ha, dictGet_cons, ha] using ih h

theorem dictGet_saveMetadata_self (fs : FS) (sid : String) (m : SessionMetadata)
    (d : SessionDir) (h : dictGet fs.sessions sid = some d) :
    dictGet (saveMetadata fs sid m).sessions sid
      = some { d with metadataFile := some (asdictMetadata m) } := by
  simpa [saveMetadata] using dictGet_map_save sid m fs.sessions d h

theorem dictGet_map_save_ne (sid sid' : String) (m : SessionMetadata)
    (l : List (String × SessionDir)) (h : ¬ sid' = sid) :
    dictGet (l.map (fun p =>
        if p.1 = sid then (p.1, { p.2 with metadataFile := some (asdictMetadata m) })
        else p)) sid'
      = dictGet l sid' := by
  induction l with
  | nil => rfl
  | cons a t ih =>
    by_cases ha : a.1 = sid
    · have ha' : ¬ a.1 = sid' := by rw [ha]; exact fun hk => h hk.symm
      simp [List.map_cons, if_pos ha, dictGet_cons, ha', ih, h]
    · by_cases ha' : a.1 = sid' <;>
        simp [List.map_cons, if_neg ha, dictGet_cons, ha', ih, h]

theorem dictGet_saveMetadata_ne (fs : FS) (sid sid' : String) (m : SessionMetadata)
    (h : ¬ sid' = sid) :
    dictGet (saveMetadata fs sid m).sessions sid' = dictGet fs.sessions sid' := by
  simpa [saveMetadata] using dictGet_map_save_ne sid sid' m fs.sessions h

/-! ### C1 — the port allocator probe -/

theorem probeCandidate_false (osFree : Nat → Bool) (port : Nat) :
    EmulatorManager.probeCandidate osFree port = false := by
  unfold EmulatorManager.probeCandidate EmulatorManager.socketBind
  by_cases h : osFree port = true <;> simp [h]

theorem findPortLoop_none (used : List Nat) (osFree : Nat → Bool) (l : List Nat) :
    EmulatorManager.findPortLoop used osFree l = none := by
  induction l with
  | nil => rfl
  | cons p rest ih =>
    by_cases hu : p ∈ used <;>
      simp [EmulatorManager.findPortLoop, hu, probeCandidate_false, ih]

/-- C1 (code bug): the probe of `_find_available_port` calls `bind` twice on
the same socket (lines 716–717); the second `bind`, issued on the
already-bound socket, always raises `OSError`, so no candidate probe can ever
succeed and the function raises `RuntimeError("No available emulator ports")`
for every registry state and every OS availability — in particular on an empty
registry with the whole range free, where the claimed behavior is to return
the first free candidate, 5554. -/
theorem find_available_port_always_exhausted :
    (∀ (osFree : Nat → Bool) (port : Nat),
       EmulatorManager.probeCandidate osFree port = false) ∧
    (∀ (ports : List (String × Nat)) (osFree : Nat → Bool),
       EmulatorManager.find_available_port ports osFree = .err .resourceExhausted) ∧
    EmulatorManager.find_available_port [] (fun _ => true) = .err .resourceExhausted := by
  refine ⟨probeCandidate_false, ?_, ?_⟩
  · intro ports osFree
    unfold EmulatorManager.find_available_port
    rw [findPortLoop_none]
  · unfold EmulatorManager.find_available_port
    rw [findPortLoop_none]

/-! ### Concrete sample states for witnesses -/

/-- A session directory holding only a (valid) metadata file. -/
def sampleMeta : SessionMetadata :=
  { session_id := "s1", created_at := "t0", last_accessed := "t0",
    avd_name := "base_pixel7_api34",
    system_image := "system-images;android-34;google_apis;x86_64",
    installed_packages := [], snapshots := ["boot"], notes := "" }

def sampleDir : SessionDir :=
  { metadataFile := some (asdictMetadata sampleMeta),
    userdataImg := false, sdcardImg := false, snapshotsSubdir := true }

/-- A manager state in which session `s1` exists on disk and is running on
port 5554. -/
def sampleRunning : ManagerState :=
  { fs := { sessions := [("s1", sampleDir)], sharedBaseUserdata := false },
    processes := [("s1", { pid := 7, exited := false })],
    ports := [("s1", 5554)] }

/-- A manager state in which session `s1` exists on disk and nothing runs. -/
def sampleStopped : ManagerState :=
  { fs := { sessions := [("s1", sampleDir)], sharedBaseUserdata := false },
    processes := [], ports := [] }

/-! ### C5 — create on an existing session -/

/-- C5: `create_session` on an id whose session directory already exists raises
`AlreadyExists` (`ValueError`) and returns with the registry and every session
directory — files, images, snapshots — unchanged. -/
theorem create_session_already_exists
    (s : ManagerState) (sid : String) (cfg : Option EmulatorConfig)
    (tmpl : Option String) (now : String)
    (h : dictMem s.fs.sessions sid = true) :
    EmulatorManager.create_session s sid cfg tmpl now = (.err (.alreadyExists sid), s) := by
  simp [EmulatorManager.create_session, h]

/-- C5 witness: creating `s1` again over `sampleStopped` fails and leaves the
state untouched. -/
theorem create_session_already_exists_witness :
    EmulatorManager.create_session sampleStopped "s1" none none "t9"
      = (.err (.alreadyExists "s1"), sampleStopped) :=
  create_session_already_exists sampleStopped "s1" none none "t9" (by decide)

/-! ### C4 — start is idempotent on a running session -/

/-- C4: `start` on an id already present in the running-instance registry
returns the serial built from the already-assigned port and changes nothing:
no spawn, no allocation, identical state. -/
theorem start_idempotent
    (s : ManagerState) (sid : String) (cfg : Option EmulatorConfig)
    (wait_boot : Bool) (timeout : Nat) (now : String) (provisionOk : Bool)
    (bindOk : Nat → Bool) (np : Proc) (bootOk : Bool) (port : Nat)
    (hproc : dictMem s.processes sid = true)
    (hport : dictGet s.ports sid = some port) :
    EmulatorManager.start s sid cfg wait_boot timeout now provisionOk bindOk np bootOk
      = (.ok ("emulator-" ++ toString port), s) := by
  simp [EmulatorManager.start, hproc, hport]

/-- C4 witness: starting the already-running `s1` of `sampleRunning` returns
`emulator-5554` and the very same state. -/
theorem start_idempotent_witness :
    EmulatorManager.start sampleRunning "s1" none true 120 "t9" true
        (fun _ => true) { pid := 9, exited := false } true
      = (.ok ("emulator-" ++ toString 5554), sampleRunning) :=
  start_idempotent sampleRunning "s1" none true 120 "t9" true
    (fun _ => true) { pid := 9, exited := false } true 5554 (by decide) (by decide)

/-! ### C3 — stop never raises and is terminal for bookkeeping -/

/-- C3: under the registry invariant (every tracked process has a port),
`stop` never raises: on an unregistered id it is a no-op returning `false`; on
a registered id it removes the id from both the process map and the port map
and returns `true` — the graceful-shutdown request and the bounded wait touch
only the external process, so the bookkeeping result is the same even when a
forced kill was needed. -/
theorem stop_never_raises
    (s : ManagerState) (sid : String) (snap : Bool)
    (hinv : dictMem s.processes sid = true → dictMem s.ports sid = true) :
    (dictMem s.processes sid = false →
       EmulatorManager.stop s sid snap = (.ok false, s)) ∧
    (dictMem s.processes sid = true →
       ∃ s', EmulatorManager.stop s sid snap = (.ok true, s') ∧
         dictMem s'.processes sid = false ∧ dictMem s'.ports sid = false ∧
         s'.fs = s.fs) := by
  constructor
  · intro h; simp [EmulatorManager.stop, h]
  · intro h
    have hp : (dictGet s.ports sid).isSome = true := by
      rw [← dictMem_eq_isSome]; exact hinv h
    obtain ⟨port, hport⟩ := Option.isSome_iff_exists.mp hp
    refine ⟨{ s with processes := dictErase s.processes sid, ports := dictErase s.ports sid }, ?_, ?_, ?_, rfl⟩
    · simp [EmulatorManager.stop, h, hport]
    · exact dictMem_dictErase_self _ _
    · exact dictMem_dictErase_self _ _

/-- C3 witness: stopping the running `s1` of `sampleRunning` and stopping the
unknown `s2` both return without raising. -/
theorem stop_never_raises_witness :
    (dictMem sampleRunning.processes "s2" = false →
       EmulatorManager.stop sampleRunning "s2" true = (.ok false, sampleRunning)) ∧
    (dictMem sampleRunning.processes "s2" = true →
       ∃ s', EmulatorManager.stop sampleRunning "s2" true = (.ok true, s') ∧
         dictMem s'.processes "s2" = false ∧ dictMem s'.ports "s2" = false ∧
         s'.fs = sampleRunning.fs) :=
  stop_never_raises sampleRunning "s2" true (by decide)

/-! ### C6 — delete of a running session -/

/-- C6: `delete_session` of a running id without `force` fails with
`SessionRunning` and removes nothing; with `force` it first stops the session
(clearing both registries) and then removes the directory, after which
`get_session` returns `none`. -/
theorem delete_session_running
    (s : ManagerState) (sid : String)
    (hproc : dictMem s.processes sid = true)
    (hport : dictMem s.ports sid = true) :
    EmulatorManager.delete_session s sid false = (.err (.sessionRunning sid), s) ∧
    (∃ r s', EmulatorManager.delete_session s sid true = (.ok r, s') ∧
       EmulatorManager.get_session s' sid = none ∧
       dictMem s'.processes sid = false ∧ dictMem s'.ports sid = false) := by
  have hp : (dictGet s.ports sid).isSome = true := by
    rw [← dictMem_eq_isSome]; exact hport
  obtain ⟨port, hport'⟩ := Option.isSome_iff_exists.mp hp
  constructor
  · simp [EmulatorManager.delete_session, hproc]
  · have hstop : EmulatorManager.stop s sid true
        = (.ok true, { s with processes := dictErase s.processes sid,
                              ports := dictErase s.ports sid }) := by
      simp [EmulatorManager.stop, hproc, hport']
    by_cases hfs : dictMem s.fs.sessions sid = true
    · refine ⟨true, { fs := { sessions := dictErase s.fs.sessions sid, sharedBaseUserdata := s.fs.sharedBaseUserdata }, processes := dictErase s.processes sid, ports := dictErase s.ports sid }, ?_, ?_, ?_, ?_⟩
      · simp [EmulatorManager.delete_session, hproc, hstop,
              EmulatorManager.rmtreeSession, hfs]
      · simp [EmulatorManager.get_session, dictMem_dictErase_self]
      · exact dictMem_dictErase_self _ _
      · exact dictMem_dictErase_self _ _
    · have hfs' : dictMem s.fs.sessions sid = false := by simpa using hfs
      refine ⟨false, { fs := s.fs, processes := dictErase s.processes sid, ports := dictErase s.ports sid }, ?_, ?_, ?_, ?_⟩
      · simp [EmulatorManager.delete_session, hproc, hstop,
              EmulatorManager.rmtreeSession, hfs']
      · simp [EmulatorManager.get_session, hfs']
      · exact dictMem_dictErase_self _ _
      · exact dictMem_dictErase_self _ _

/-- C6 witness: deleting the running `s1` of `sampleRunning` without force
fails; with force it succeeds and the session is fully gone. -/
theorem delete_session_running_witness :
    EmulatorManager.delete_session sampleRunning "s1" false
      = (.err (.sessionRunning "s1"), sampleRunning) ∧
    (∃ r s', EmulatorManager.delete_session sampleRunning "s1" true = (.ok r, s') ∧
       EmulatorManager.get_session s' "s1" = none ∧
       dictMem s'.processes "s1" = false ∧ dictMem s'.ports "s1" = false) :=
  delete_session_running sampleRunning "s1" (by decide) (by decide)

/-! ### C8 — metadata save/load round trip -/

/-- C8: any `SessionMetadata` record — the eight fields `session_id`,
`created_at`, `last_accessed`, `avd_name`, `system_image`,
`installed_packages`, `snapshots`, `notes` — written by `_save_metadata` and
read back by `_load_metadata` comes back with exactly the same fields; the
defaults-only record `create_session` writes is the special case
`installed_packages = snapshots = []`. -/
theorem metadata_roundtrip (m : SessionMetadata) (fs : FS) (sid : String)
    (d : SessionDir) (h : dictGet fs.sessions sid = some d) :
    metadataOfJson (asdictMetadata m) = some m ∧
    (∃ d', dictGet (saveMetadata fs sid m).sessions sid = some d' ∧
       loadMetadata d' = .ok (some m)) :=
  ⟨metadataOfJson_asdict m,
   ⟨_, dictGet_saveMetadata_self fs sid m d h, loadMetadata_asdict d m⟩⟩

/-- C8 witness: the round trip at a concrete store and record. -/
theorem metadata_roundtrip_witness :
    metadataOfJson (asdictMetadata sampleMeta) = some sampleMeta ∧
    (∃ d', dictGet (saveMetadata sampleStopped.fs "s1" sampleMeta).sessions "s1" = some d' ∧
       loadMetadata d' = .ok (some sampleMeta)) :=
  metadata_roundtrip sampleMeta sampleStopped.fs "s1" sampleDir (by decide)

/-! ### C9 — best-effort template copy -/

/-- C9: `create_session` of a fresh id with a `from_template` whose resolved
source image is absent (the shared base image for `"base"`, another session's
`userdata.img` otherwise) succeeds: the directory, `snapshots/` subdirectory
and metadata are created normally; the copy is silently skipped, so the new
session has no `userdata.img`. -/
theorem create_session_template_missing
    (s : ManagerState) (sid t : String) (cfg : Option EmulatorConfig) (now : String)
    (hfresh : dictMem s.fs.sessions sid = false)
    (ht : ¬ t = "")
    (hsrc : (if t = "base" then s.fs.sharedBaseUserdata
             else match dictGet s.fs.sessions t with
                  | some d => d.userdataImg
                  | none => false) = false) :
    (EmulatorManager.create_session s sid cfg (some t) now).1
        = .ok ("sessions/" ++ sid) ∧
    dictGet (EmulatorManager.create_session s sid cfg (some t) now).2.fs.sessions sid
      = some
        { metadataFile := some (asdictMetadata
            { session_id := sid, created_at := now, last_accessed := now,
              avd_name := (cfg.getD {}).avd_name,
              system_image := (cfg.getD {}).system_image,
              installed_packages := [], snapshots := [], notes := "" }),
          userdataImg := false, sdcardImg := false, snapshotsSubdir := true } := by
  constructor
  · simp only [EmulatorManager.create_session, hfresh, Bool.false_eq_true,
      if_false, if_neg ht, hsrc]
  · simp only [EmulatorManager.create_session, hfresh, Bool.false_eq_true,
      if_false, if_neg ht, hsrc]
    exact dictGet_dictSet_self _ _ _

/-- C9 witness: creating fresh `s2` from the `"base"` template over a store
with no shared base image succeeds with no user-data image. -/
theorem create_session_template_missing_witness :
    (EmulatorManager.create_session sampleStopped "s2" none (some "base") "t1").1
        = .ok ("sessions/" ++ "s2") ∧
    dictGet (EmulatorManager.create_session sampleStopped "s2" none (some "base") "t1").2.fs.sessions "s2"
      = some
        { metadataFile := some (asdictMetadata
            { session_id := "s2", created_at := "t1", last_accessed := "t1",
              avd_name := ((none : Option EmulatorConfig).getD {}).avd_name,
              system_image := ((none : Option EmulatorConfig).getD {}).system_image,
              installed_packages := [], snapshots := [], notes := "" }),
          userdataImg := false, sdcardImg := false, snapshotsSubdir := true } :=
  create_session_template_missing sampleStopped "s2" "base" none "t1"
    (by decide) (by decide) (by decide)

/-! ### C10 — the not-running guard consults only the port registry -/

theorem loadMetadata_err_typeError (d : SessionDir) (e : PyError)
    (h : loadMetadata d = .err e) : e = .typeError := by
  unfold loadMetadata at h
  cases hm : d.metadataFile with
  | none => rw [hm] at h; cases h
  | some j =>
    rw [hm] at h
    cases hj : metadataOfJson j with
    | some m => simp [hj] at h
    | none => simp [hj] at h; exact h.symm

theorem get_serial_isSome (s : ManagerState) (sid : String) :
    (EmulatorManager.get_serial s sid).isSome = dictMem s.ports sid := by
  rw [dictMem_eq_isSome]
  cases hg : dictGet s.ports sid <;> simp [EmulatorManager.get_serial, hg]

theorem get_serial_none_of_noPort (s : ManagerState) (sid : String)
    (h : dictMem s.ports sid = false) :
    EmulatorManager.get_serial s sid = none := by
  rw [dictMem_eq_isSome] at h
  cases hg : dictGet s.ports sid with
  | none => simp [EmulatorManager.get_serial, hg]
  | some p => rw [hg] at h; simp at h

theorem get_serial_some_of_port (s : ManagerState) (sid : String)
    (h : dictMem s.ports sid = true) :
    ∃ port, dictGet s.ports sid = some port ∧
      EmulatorManager.get_serial s sid = some ("emulator-" ++ toString port) := by
  rw [dictMem_eq_isSome] at h
  obtain ⟨port, hport⟩ := Option.isSome_iff_exists.mp h
  exact ⟨port, hport, by simp [EmulatorManager.get_serial, hport]⟩

theorem save_snapshot_ne_notRunning (s : ManagerState) (sid n : String) (adbOk : Bool)
    (hm : dictMem s.ports sid = true) :
    (EmulatorManager.save_snapshot s sid n adbOk).1 ≠ .err (.sessionNotRunning sid) := by
  obtain ⟨port, hport, hser⟩ := get_serial_some_of_port s sid hm
  simp only [EmulatorManager.save_snapshot, hser]
  cases adbOk with
  | false => simp
  | true =>
    simp only [if_true]
    cases hd : dictGet s.fs.sessions sid with
    | none => simp
    | some d =>
      cases hl : loadMetadata d with
      | err e =>
        have he := loadMetadata_err_typeError d e hl
        subst he; simp [hl]
      | ok mo =>
        cases mo with
        | none => simp [hl]
        | some m => by_cases hmem : n ∈ m.snapshots <;> simp [hl, hmem]

theorem delete_snapshot_ne_notRunning (s : ManagerState) (sid n : String) (adbOk : Bool)
    (hm : dictMem s.ports sid = true) :
    (EmulatorManager.delete_snapshot s sid n adbOk).1 ≠ .err (.sessionNotRunning sid) := by
  obtain ⟨port, hport, hser⟩ := get_serial_some_of_port s sid hm
  simp only [EmulatorManager.delete_snapshot, hser]
  cases adbOk with
  | false => simp
  | true =>
    simp only [if_true]
    cases hd : dictGet s.fs.sessions sid with
    | none => simp
    | some d =>
      cases hl : loadMetadata d with
      | err e =>
        have he := loadMetadata_err_typeError d e hl
        subst he; simp [hl]
      | ok mo =>
        cases mo with
        | none => simp [hl]
        | some m => by_cases hmem : n ∈ m.snapshots <;> simp [hl, hmem]

theorem load_snapshot_ne_notRunning (s : ManagerState) (sid n : String) (adbOk : Bool)
    (hm : dictMem s.ports sid = true) :
    (EmulatorManager.load_snapshot s sid n adbOk).1 ≠ .err (.sessionNotRunning sid) := by
  obtain ⟨port, hport, hser⟩ := get_serial_some_of_port s sid hm
  simp [EmulatorManager.load_snapshot, hser]

theorem install_apk_ne_notRunning (s : ManagerState) (sid path : String) (adbOk : Bool)
    (pkg : Option String) (hm : dictMem s.ports sid = true) :
    (EmulatorManager.install_apk s sid path adbOk pkg).1 ≠ .err (.sessionNotRunning sid) := by
  obtain ⟨port, hport, hser⟩ := get_serial_some_of_port s sid hm
  simp only [EmulatorManager.install_apk, hser]
  cases adbOk with
  | false => simp
  | true =>
    simp only [if_true]
    cases pkg with
    | none => simp
    | some p =>
      cases hd : dictGet s.fs.sessions sid with
      | none => simp
      | some d =>
        cases hl : loadMetadata d with
        | err e => simp [hl]
        | ok mo =>
          cases mo with
          | none => simp [hl]
          | some m => by_cases hmem : p ∈ m.installed_packages <;> simp [hl, hmem]

/-- C10: the not-running precondition of `save_snapshot`, `load_snapshot`,
`delete_snapshot` and `install_apk` is decided solely by membership of the id
in the port registry (via `get_serial`), never by OS-process liveness: each
raises `SessionNotRunning` exactly when the id has no registered port, and
proceeds even when `is_running` reports `false` because the tracked process
has exited. -/
theorem notRunning_guard_is_port_membership
    (s : ManagerState) (sid n path : String) (adbOk : Bool) (pkg : Option String) :
    ((EmulatorManager.get_serial s sid).isSome = dictMem s.ports sid) ∧
    ((EmulatorManager.save_snapshot s sid n adbOk).1 = .err (.sessionNotRunning sid)
       ↔ dictMem s.ports sid = false) ∧
    ((EmulatorManager.load_snapshot s sid n adbOk).1 = .err (.sessionNotRunning sid)
       ↔ dictMem s.ports sid = false) ∧
    ((EmulatorManager.delete_snapshot s sid n adbOk).1 = .err (.sessionNotRunning sid)
       ↔ dictMem s.ports sid = false) ∧
    ((EmulatorManager.install_apk s sid path adbOk pkg).1 = .err (.sessionNotRunning sid)
       ↔ dictMem s.ports sid = false) ∧
    (∀ p : Proc, dictGet s.processes sid = some p → p.exited = true →
       EmulatorManager.is_running s sid = false) := by
  have hToF : ∀ P : Prop, (dictMem s.ports sid = true → P) →
      (dictMem s.ports sid = false → P) → P := by
    intro P h1 h2
    by_cases hm : dictMem s.ports sid = true
    · exact h1 hm
    · exact h2 (by simpa using hm)
  refine ⟨get_serial_isSome s sid, ?_, ?_, ?_, ?_, ?_⟩
  · constructor
    · intro h
      by_cases hm : dictMem s.ports sid = true
      · exact absurd h (save_snapshot_ne_notRunning s sid n adbOk hm)
      · simpa using hm
    · intro h
      simp [EmulatorManager.save_snapshot, get_serial_none_of_noPort s sid h]
  · constructor
    · intro h
      by_cases hm : dictMem s.ports sid = true
      · exact absurd h (load_snapshot_ne_notRunning s sid n adbOk hm)
      · simpa using hm
    · intro h
      simp [EmulatorManager.load_snapshot, get_serial_none_of_noPort s sid h]
  · constructor
    · intro h
      by_cases hm : dictMem s.ports sid = true
      · exact absurd h (delete_snapshot_ne_notRunning s sid n adbOk hm)
      · simpa using hm
    · intro h
      simp [EmulatorManager.delete_snapshot, get_serial_none_of_noPort s sid h]
  · constructor
    · intro h
      by_cases hm : dictMem s.ports sid = true
      · exact absurd h (install_apk_ne_notRunning s sid path adbOk pkg hm)
      · simpa using hm
    · intro h
      simp [EmulatorManager.install_apk, get_serial_none_of_noPort s sid h]
  · intro p hp hex
    simp [EmulatorManager.is_running, hp, hex]

/-- A state whose tracked process for `s1` has already exited while the port
registry still holds the entry. -/
def sampleExited : ManagerState :=
  { fs := { sessions := [("s1", sampleDir)], sharedBaseUserdata := false },
    processes := [("s1", { pid := 7, exited := true })],
    ports := [("s1", 5554)] }

/-- C10 witness: on `sampleExited` the process has exited (`is_running` is
`false`) yet `save_snapshot` does not raise the not-running error. -/
theorem notRunning_guard_is_port_membership_witness :
    (EmulatorManager.save_snapshot sampleExited "s1" "snap" true).1
      ≠ .err (.sessionNotRunning "s1") ∧
    EmulatorManager.is_running sampleExited "s1" = false := by
  have h := notRunning_guard_is_port_membership sampleExited "s1" "snap" "app.apk" true none
  refine ⟨?_, by decide⟩
  intro hc
  have := (h.2.1).mp hc
  exact absurd this (by decide)

/-! ### C2 — boot-wait failure triggers cleanup -/

/-- C2: `start` with `wait_boot` on a not-yet-running id, when provisioning and
port allocation succeed but boot confirmation does not arrive, invokes `stop`
and raises `BootTimeout`, leaving the id in neither the process registry nor
the port registry. -/
theorem start_boot_timeout_cleanup
    (s : ManagerState) (sid : String) (cfg : Option EmulatorConfig) (timeout : Nat)
    (now : String) (bindOk : Nat → Bool) (np : Proc)
    (hproc : dictMem s.processes sid = false)
    (s1 : ManagerState) (p1 : String)
    (h1 : (if (EmulatorManager.get_session s sid).isSome
             then (PyResult.ok ("sessions/" ++ sid), s)
             else EmulatorManager.create_session s sid cfg none now) = (.ok p1, s1))
    (mo : Option SessionMetadata)
    (hmeta : (match dictGet s1.fs.sessions sid with
              | some d => loadMetadata d
              | none => PyResult.err PyError.typeError) = .ok mo)
    (port : Nat)
    (hport : EmulatorManager.resolvePort (cfg.getD {}) s1.ports bindOk = .ok port) :
    ∃ s', EmulatorManager.start s sid cfg true timeout now true bindOk np false
        = (.err (.bootTimeout timeout), s') ∧
      dictMem s'.processes sid = false ∧ dictMem s'.ports sid = false := by
  have heq : EmulatorManager.start s sid cfg true timeout now true bindOk np false
      = (.err (.bootTimeout timeout), { fs := s1.fs, processes := dictErase (dictSet s1.processes sid np) sid, ports := dictErase (dictSet s1.ports sid port) sid }) := by
    simp [EmulatorManager.start, hproc, h1, hmeta, hport, EmulatorManager.stop,
          dictMem_dictSet_self, dictGet_dictSet_self]
  exact ⟨_, heq, dictMem_dictErase_self _ _, dictMem_dictErase_self _ _⟩

/-- A config pinning the control port: `port = config.port or ...` (line 371)
short-circuits on a nonzero configured port and never reaches
`_find_available_port`. -/
def portConfig : EmulatorConfig := { port := some 5554 }

/-- The state produced by auto-creating session `s1` in an empty store. -/
def sampleCreated : ManagerState :=
  (EmulatorManager.create_session {} "s1" (some portConfig) none "t0").2

/-- The metadata record `create_session` writes for `s1` at time `t0`. -/
def sampleCreatedMeta : SessionMetadata :=
  { session_id := "s1", created_at := "t0", last_accessed := "t0",
    avd_name := "base_pixel7_api34",
    system_image := "system-images;android-34;google_apis;x86_64" }

/-- C2 witness: starting fresh `s1` on an empty manager with a pinned control
port and all external steps succeeding except boot leaves no trace in either
registry. -/
theorem start_boot_timeout_cleanup_witness :
    ∃ s', EmulatorManager.start {} "s1" (some portConfig) true 120 "t0" true (fun _ => true) {} false
        = (.err (.bootTimeout 120), s') ∧
      dictMem s'.processes "s1" = false ∧ dictMem s'.ports "s1" = false :=
  start_boot_timeout_cleanup {} "s1" (some portConfig) 120 "t0" (fun _ => true) {}
    (by decide) sampleCreated ("sessions/" ++ "s1") (by rfl)
    (some sampleCreatedMeta) (by rfl) 5554 (by rfl)

/-! ### C7 — snapshot round trip against metadata -/

/-- The snapshot list currently recorded in a session's persisted metadata. -/
def metaSnapshots (s : ManagerState) (sid : String) : Option (List String) :=
  match dictGet s.fs.sessions sid with
  | some d =>
    match loadMetadata d with
    | .ok (some m) => some m.snapshots
    | _ => none
  | none => none

theorem snapshot_roundtrip_tail
    (s₁ : ManagerState) (sid n out : String) (port : Nat)
    (d₁ : SessionDir) (m₁ : SessionMetadata)
    (hports : dictGet s₁.ports sid = some port)
    (hproc : dictMem s₁.processes sid = true)
    (hdir : dictGet s₁.fs.sessions sid = some d₁)
    (hm : loadMetadata d₁ = .ok (some m₁))
    (hmem : n ∈ m₁.snapshots)
    (hcount : m₁.snapshots.count n = 1) :
    (∃ s₂, EmulatorManager.stop s₁ sid true = (.ok true, s₂) ∧
       EmulatorManager.list_snapshots s₂ sid out = (.ok m₁.snapshots, s₂)) ∧
    (∃ s₃ l₃, EmulatorManager.delete_snapshot s₁ sid n true = (.ok true, s₃) ∧
       metaSnapshots s₃ sid = some l₃ ∧ n ∉ l₃ ∧
       (∃ s₄, EmulatorManager.stop s₃ sid true = (.ok true, s₄) ∧
          EmulatorManager.list_snapshots s₄ sid out = (.ok l₃, s₄))) := by
  have hser₁ : EmulatorManager.get_serial s₁ sid = some ("emulator-" ++ toString port) := by
    simp [EmulatorManager.get_serial, hports]
  constructor
  · have hstop : EmulatorManager.stop s₁ sid true
        = (.ok true, { fs := s₁.fs, processes := dictErase s₁.processes sid, ports := dictErase s₁.ports sid }) := by
      simp [EmulatorManager.stop, hproc, hports]
    refine ⟨_, hstop, ?_⟩
    simp [EmulatorManager.list_snapshots, EmulatorManager.get_serial,
          dictGet_dictErase_self, hdir, hm]
  · have hdel : EmulatorManager.delete_snapshot s₁ sid n true
        = (.ok true, { fs := saveMetadata s₁.fs sid { m₁ with snapshots := m₁.snapshots.erase n }, processes := s₁.processes, ports := s₁.ports }) := by
      simp [EmulatorManager.delete_snapshot, hser₁, hdir, hm, hmem]
    have hd₂ := dictGet_saveMetadata_self s₁.fs sid
      { m₁ with snapshots := m₁.snapshots.erase n } d₁ hdir
    have hnot : n ∉ m₁.snapshots.erase n := by
      have : (m₁.snapshots.erase n).count n = 0 := by
        rw [List.count_erase_self, hcount]
      exact List.count_eq_zero.mp this
    refine ⟨_, m₁.snapshots.erase n, hdel, ?_, hnot, ?_⟩
    · simp [metaSnapshots, hd₂, loadMetadata_asdict]
    · have hstop₃ : EmulatorManager.stop { fs := saveMetadata s₁.fs sid { m₁ with snapshots := m₁.snapshots.erase n }, processes := s₁.processes, ports := s₁.ports } sid true
          = (.ok true, { fs := saveMetadata s₁.fs sid { m₁ with snapshots := m₁.snapshots.erase n }, processes := dictErase s₁.processes sid, ports := dictErase s₁.ports sid }) := by
        simp [EmulatorManager.stop, hproc, hports]
      refine ⟨_, hstop₃, ?_⟩
      simp [EmulatorManager.list_snapshots, EmulatorManager.get_serial,
            dictGet_dictErase_self, hd₂, loadMetadata_asdict]

/-- C7: against a running session with loadable metadata (whose list is
duplicate-free at `n`), a failed instance command leaves everything unchanged,
while a successful `save_snapshot` records `n` in the persisted metadata — so
that `list_snapshots` after `stop` still includes `n` — and a subsequent
successful `delete_snapshot` removes it — so that `list_snapshots` after
`stop` excludes `n`. -/
theorem snapshot_roundtrip
    (s : ManagerState) (sid n out : String)
    (d : SessionDir) (m : SessionMetadata)
    (hports : dictMem s.ports sid = true)
    (hproc : dictMem s.processes sid = true)
    (hdir : dictGet s.fs.sessions sid = some d)
    (hm : loadMetadata d = .ok (some m))
    (hcount : m.snapshots.count n ≤ 1) :
    EmulatorManager.save_snapshot s sid n false = (.ok false, s) ∧
    EmulatorManager.delete_snapshot s sid n false = (.ok false, s) ∧
    (∃ s₁ l₁,
       EmulatorManager.save_snapshot s sid n true = (.ok true, s₁) ∧
       metaSnapshots s₁ sid = some l₁ ∧ n ∈ l₁ ∧
       (∃ s₂, EmulatorManager.stop s₁ sid true = (.ok true, s₂) ∧
          EmulatorManager.list_snapshots s₂ sid out = (.ok l₁, s₂)) ∧
       (∃ s₃ l₃,
          EmulatorManager.delete_snapshot s₁ sid n true = (.ok true, s₃) ∧
          metaSnapshots s₃ sid = some l₃ ∧ n ∉ l₃ ∧
          (∃ s₄, EmulatorManager.stop s₃ sid true = (.ok true, s₄) ∧
             EmulatorManager.list_snapshots s₄ sid out = (.ok l₃, s₄)))) := by
  obtain ⟨port, hport, hser⟩ := get_serial_some_of_port s sid hports
  refine ⟨?_, ?_, ?_⟩
  · simp [EmulatorManager.save_snapshot, hser]
  · simp [EmulatorManager.delete_snapshot, hser]
  · by_cases hmem : n ∈ m.snapshots
    · have hsave : EmulatorManager.save_snapshot s sid n true = (.ok true, s) := by
        simp [EmulatorManager.save_snapshot, hser, hdir, hm, hmem]
      have hcount' : m.snapshots.count n = 1 := by
        have h1 : 0 < m.snapshots.count n := List.count_pos_iff.mpr hmem
        omega
      have htail := snapshot_roundtrip_tail s sid n out port d m hport hproc hdir hm hmem hcount'
      exact ⟨s, m.snapshots, hsave, by simp [metaSnapshots, hdir, hm], hmem,
             htail.1, htail.2⟩
    · have hsave : EmulatorManager.save_snapshot s sid n true
          = (.ok true, { fs := saveMetadata s.fs sid { m with snapshots := m.snapshots ++ [n] }, processes := s.processes, ports := s.ports }) := by
        simp [EmulatorManager.save_snapshot, hser, hdir, hm, hmem]
      have hd₁ := dictGet_saveMetadata_self s.fs sid
        { m with snapshots := m.snapshots ++ [n] } d hdir
      have hmem₁ : n ∈ m.snapshots ++ [n] := by simp
      have hcount₁ : (m.snapshots ++ [n]).count n = 1 := by
        rw [List.count_append, List.count_eq_zero_of_not_mem hmem]
        simp
      have htail := snapshot_roundtrip_tail
        { fs := saveMetadata s.fs sid { m with snapshots := m.snapshots ++ [n] }, processes := s.processes, ports := s.ports }
        sid n out port
        { d with metadataFile := some (asdictMetadata { m with snapshots := m.snapshots ++ [n] }) }
        { m with snapshots := m.snapshots ++ [n] }
        hport hproc hd₁ (loadMetadata_asdict _ _) hmem₁ hcount₁
      refine ⟨_, m.snapshots ++ [n], hsave, ?_, hmem₁, htail.1, htail.2⟩
      simp [metaSnapshots, hd₁, loadMetadata_asdict]

/-- C7 witness: the round trip at `sampleRunning` with snapshot name `snap2`. -/
theorem snapshot_roundtrip_witness :
    EmulatorManager.save_snapshot sampleRunning "s1" "snap2" false = (.ok false, sampleRunning) ∧
    EmulatorManager.delete_snapshot sampleRunning "s1" "snap2" false = (.ok false, sampleRunning) ∧
    (∃ s₁ l₁,
       EmulatorManager.save_snapshot sampleRunning "s1" "snap2" true = (.ok true, s₁) ∧
       metaSnapshots s₁ "s1" = some l₁ ∧ "snap2" ∈ l₁ ∧
       (∃ s₂, EmulatorManager.stop s₁ "s1" true = (.ok true, s₂) ∧
          EmulatorManager.list_snapshots s₂ "s1" "" = (.ok l₁, s₂)) ∧
       (∃ s₃ l₃,
          EmulatorManager.delete_snapshot s₁ "s1" "snap2" true = (.ok true, s₃) ∧
          metaSnapshots s₃ "s1" = some l₃ ∧ "snap2" ∉ l₃ ∧
          (∃ s₄, EmulatorManager.stop s₃ "s1" true = (.ok true, s₄) ∧
             EmulatorManager.list_snapshots s₄ "s1" "" = (.ok l₃, s₄)))) :=
  snapshot_roundtrip sampleRunning "s1" "snap2" "" sampleDir sampleMeta
    (by decide) (by decide) (by decide) (by decide) (by decide)
